import Mathlib

/-!
Shallow embedding of the prusa_link_rs client library (src/lib.rs and
src/raw_printer.rs) and verification of its specification.

Modeling conventions:
* The external HTTP transport (reqwest) is represented by passing each
  operation the outcome of its network call: either a transport error or the
  raw response body.
* The external JSON parser (serde_json's text-level parser) is represented by
  pairing the raw body text with the parser's verdict on it (a JSON value, or
  none when the text is not valid JSON).  The derived serde Deserialize
  instances are embedded explicitly below, operating on the parsed JSON value.
* f32 fields are modeled as exact rationals: the library performs no
  floating-point arithmetic on decoded numbers (they are only stored and
  returned), and equal decimal literals denote equal values in both models.
* Instant and Duration are modeled as natural numbers (nanoseconds);
  Instant::elapsed is saturating subtraction against the clock reading taken
  at call time, which each operation receives as a parameter.
-/

/-- JSON values, as produced by the external JSON parser. -/
inductive Json where
  | null : Json
  | bool (b : Bool) : Json
  | num (q : ℚ) : Json
  | str (s : String) : Json
  | arr (elems : List Json) : Json
  | obj (fields : List (String × Json)) : Json

namespace Json

/-- All values bound to key k in an object's field list, in order. -/
def values (fields : List (String × Json)) (k : String) : List Json :=
  fields.filterMap (fun p => if p.1 = k then some p.2 else none)

/-- A required struct field of a serde derived Deserialize: the derived
visitor errors when the field is missing or duplicated. -/
def reqField (fields : List (String × Json)) (k : String) : Option Json :=
  match values fields k with
  | [j] => some j
  | _ => none

/-- An Option-typed struct field of a serde derived Deserialize: a missing
field is None, a duplicated field is an error. -/
def optField (fields : List (String × Json)) (k : String) : Option (Option Json) :=
  match values fields k with
  | [] => some none
  | [j] => some (some j)
  | _ => none

/-- Deserialize an f32 (modeled as an exact rational). -/
def asNum : Json → Option ℚ
  | .num q => some q
  | _ => none

/-- Deserialize a bool. -/
def asBool : Json → Option Bool
  | .bool b => some b
  | _ => none

/-- Deserialize a String. -/
def asStr : Json → Option String
  | .str s => some s
  | _ => none

/-- Deserialize a u64: an integral JSON number within the 64-bit range. -/
def asU64 : Json → Option ℕ
  | .num q => if q.den = 1 ∧ 0 ≤ q.num ∧ q.num < 2 ^ 64 then some q.num.toNat else none
  | _ => none

/-- Deserialize an Option-typed field value: an absent field or an explicit
null is none; any other value is deserialized with dec. -/
def decodeOpt (dec : Json → Option α) : Option Json → Option (Option α)
  | none => some none
  | some .null => some none
  | some j => (dec j).map some

end Json

/-- src/raw_printer.rs: struct Temp. -/
structure Temp where
  actual : ℚ
  target : ℚ
deriving DecidableEq

/-- src/raw_printer.rs: struct PrinterTemperature (wire key tool0 is renamed
to nozzle). -/
structure PrinterTemperature where
  nozzle : Temp
  bed : Temp
deriving DecidableEq

/-- src/raw_printer.rs: struct PrinterSd. -/
structure PrinterSd where
  ready : Bool
deriving DecidableEq

/-- src/raw_printer.rs: struct PrinterFlags (wire keys sdReady and
closedOrError are renamed). -/
structure PrinterFlags where
  operational : Bool
  paused : Bool
  printing : Bool
  cancelling : Bool
  pausing : Bool
  sd_ready : Bool
  error : Bool
  ready : Bool
  closed_or_error : Bool
  finished : Bool
  prepared : Bool
  link_state : String
deriving DecidableEq

/-- src/raw_printer.rs: struct PrinterState. -/
structure PrinterState where
  text : String
  flags : PrinterFlags
deriving DecidableEq

/-- src/raw_printer.rs: struct PrinterTelemetry. -/
structure PrinterTelemetry where
  bed_temp : ℚ
  nozzle_temp : ℚ
  material : String
  z_height : ℚ
  print_speed : ℚ
  axis_x : Option ℚ
  axis_y : Option ℚ
  axis_z : Option ℚ
deriving DecidableEq

/-- src/raw_printer.rs: struct PrinterStorageInfo. -/
structure PrinterStorageInfo where
  free_space : ℕ
  total_space : ℕ
deriving DecidableEq

/-- src/raw_printer.rs: struct PrinterStorage. -/
structure PrinterStorage where
  «local» : Option PrinterStorageInfo
  sd_card : Option PrinterStorageInfo
deriving DecidableEq

/-- src/raw_printer.rs: pub struct RawPrinter. -/
structure RawPrinter where
  temperature : PrinterTemperature
  sd : PrinterSd
  state : PrinterState
  telemetry : PrinterTelemetry
  storage : PrinterStorage
deriving DecidableEq

/-- Field names the derived Deserialize of Temp recognizes. -/
def Temp.fieldNames : List String := [("actual"), ("target")]

/-- serde derived Deserialize for Temp: the derived visitor collects each
recognized field from the map and then builds the struct, failing when a
required field is missing, duplicated, or of the wrong type. -/
def Temp.fromJson : Json → Option Temp
  | .obj fs =>
      match (Json.reqField fs ("actual")).bind Json.asNum,
          (Json.reqField fs ("target")).bind Json.asNum with
      | some actual, some target => some { actual, target }
      | _, _ => none
  | _ => none

/-- Field names the derived Deserialize of PrinterTemperature recognizes. -/
def PrinterTemperature.fieldNames : List String := [("tool0"), ("bed")]

/-- serde derived Deserialize for PrinterTemperature. -/
def PrinterTemperature.fromJson : Json → Option PrinterTemperature
  | .obj fs =>
      match (Json.reqField fs ("tool0")).bind Temp.fromJson,
          (Json.reqField fs ("bed")).bind Temp.fromJson with
      | some nozzle, some bed => some { nozzle, bed }
      | _, _ => none
  | _ => none

/-- Field names the derived Deserialize of PrinterSd recognizes. -/
def PrinterSd.fieldNames : List String := [("ready")]

/-- serde derived Deserialize for PrinterSd. -/
def PrinterSd.fromJson : Json → Option PrinterSd
  | .obj fs =>
      match (Json.reqField fs ("ready")).bind Json.asBool with
      | some ready => some { ready }
      | _ => none
  | _ => none

/-- Field names the derived Deserialize of PrinterFlags recognizes. -/
def PrinterFlags.fieldNames : List String :=
  [("operational"), ("paused"), ("printing"), ("cancelling"), ("pausing"),
   ("sdReady"), ("error"), ("ready"), ("closedOrError"), ("finished"),
   ("prepared"), ("link_state")]

/-- serde derived Deserialize for PrinterFlags. -/
def PrinterFlags.fromJson : Json → Option PrinterFlags
  | .obj fs =>
      match (Json.reqField fs ("operational")).bind Json.asBool,
          (Json.reqField fs ("paused")).bind Json.asBool,
          (Json.reqField fs ("printing")).bind Json.asBool,
          (Json.reqField fs ("cancelling")).bind Json.asBool,
          (Json.reqField fs ("pausing")).bind Json.asBool,
          (Json.reqField fs ("sdReady")).bind Json.asBool,
          (Json.reqField fs ("error")).bind Json.asBool,
          (Json.reqField fs ("ready")).bind Json.asBool,
          (Json.reqField fs ("closedOrError")).bind Json.asBool,
          (Json.reqField fs ("finished")).bind Json.asBool,
          (Json.reqField fs ("prepared")).bind Json.asBool,
          (Json.reqField fs ("link_state")).bind Json.asStr with
      | some operational, some paused, some printing, some cancelling,
          some pausing, some sd_ready, some error, some ready,
          some closed_or_error, some finished, some prepared, some link_state =>
          some { operational, paused, printing, cancelling, pausing, sd_ready,
                 error, ready, closed_or_error, finished, prepared, link_state }
      | _, _, _, _, _, _, _, _, _, _, _, _ => none
  | _ => none

/-- Field names the derived Deserialize of PrinterState recognizes. -/
def PrinterState.fieldNames : List String := [("text"), ("flags")]

/-- serde derived Deserialize for PrinterState. -/
def PrinterState.fromJson : Json → Option PrinterState
  | .obj fs =>
      match (Json.reqField fs ("text")).bind Json.asStr,
          (Json.reqField fs ("flags")).bind PrinterFlags.fromJson with
      | some text, some flags => some { text, flags }
      | _, _ => none
  | _ => none

/-- Field names the derived Deserialize of PrinterTelemetry recognizes. -/
def PrinterTelemetry.fieldNames : List String :=
  [("bed_temp"), ("nozzle_temp"), ("material"), ("z_height"), ("print_speed"),
   ("axis_x"), ("axis_y"), ("axis_z")]

/-- serde derived Deserialize for PrinterTelemetry: the axis fields have
type Option of f32, so a missing field or an explicit null is absent. -/
def PrinterTelemetry.fromJson : Json → Option PrinterTelemetry
  | .obj fs =>
      match (Json.reqField fs ("bed_temp")).bind Json.asNum,
          (Json.reqField fs ("nozzle_temp")).bind Json.asNum,
          (Json.reqField fs ("material")).bind Json.asStr,
          (Json.reqField fs ("z_height")).bind Json.asNum,
          (Json.reqField fs ("print_speed")).bind Json.asNum,
          (Json.optField fs ("axis_x")).bind (Json.decodeOpt Json.asNum),
          (Json.optField fs ("axis_y")).bind (Json.decodeOpt Json.asNum),
          (Json.optField fs ("axis_z")).bind (Json.decodeOpt Json.asNum) with
      | some bed_temp, some nozzle_temp, some material, some z_height,
          some print_speed, some axis_x, some axis_y, some axis_z =>
          some { bed_temp, nozzle_temp, material, z_height, print_speed,
                 axis_x, axis_y, axis_z }
      | _, _, _, _, _, _, _, _ => none
  | _ => none

/-- Field names the derived Deserialize of PrinterStorageInfo recognizes. -/
def PrinterStorageInfo.fieldNames : List String := [("free_space"), ("total_space")]

/-- serde derived Deserialize for PrinterStorageInfo. -/
def PrinterStorageInfo.fromJson : Json → Option PrinterStorageInfo
  | .obj fs =>
      match (Json.reqField fs ("free_space")).bind Json.asU64,
          (Json.reqField fs ("total_space")).bind Json.asU64 with
      | some free_space, some total_space => some { free_space, total_space }
      | _, _ => none
  | _ => none

/-- Field names the derived Deserialize of PrinterStorage recognizes. -/
def PrinterStorage.fieldNames : List String := [("local"), ("sd_card")]

/-- serde derived Deserialize for PrinterStorage: both slots have type
Option of PrinterStorageInfo, so a missing field or an explicit null is
absent. -/
def PrinterStorage.fromJson : Json → Option PrinterStorage
  | .obj fs =>
      match (Json.optField fs ("local")).bind (Json.decodeOpt PrinterStorageInfo.fromJson),
          (Json.optField fs ("sd_card")).bind (Json.decodeOpt PrinterStorageInfo.fromJson) with
      | some l, some sd_card => some { «local» := l, sd_card }
      | _, _ => none
  | _ => none

/-- Field names the derived Deserialize of RawPrinter recognizes. -/
def RawPrinter.fieldNames : List String :=
  [("temperature"), ("sd"), ("state"), ("telemetry"), ("storage")]

/-- serde derived Deserialize for RawPrinter. -/
def RawPrinter.fromJson : Json → Option RawPrinter
  | .obj fs =>
      match (Json.reqField fs ("temperature")).bind PrinterTemperature.fromJson,
          (Json.reqField fs ("sd")).bind PrinterSd.fromJson,
          (Json.reqField fs ("state")).bind PrinterState.fromJson,
          (Json.reqField fs ("telemetry")).bind PrinterTelemetry.fromJson,
          (Json.reqField fs ("storage")).bind PrinterStorage.fromJson with
      | some temperature, some sd, some state, some telemetry, some storage =>
          some { temperature, sd, state, telemetry, storage }
      | _, _, _, _, _ => none
  | _ => none

namespace RawPrinter

/-- src/raw_printer.rs: get_paused. -/
def get_paused (self : RawPrinter) : Bool := self.state.flags.paused

/-- src/raw_printer.rs: get_operational. -/
def get_operational (self : RawPrinter) : Bool := self.state.flags.operational

/-- src/raw_printer.rs: get_ready. -/
def get_ready (self : RawPrinter) : Bool := self.state.flags.ready

/-- src/raw_printer.rs: get_sd_ready. -/
def get_sd_ready (self : RawPrinter) : Bool := self.state.flags.sd_ready

/-- src/raw_printer.rs: get_error. -/
def get_error (self : RawPrinter) : Bool := self.state.flags.error

/-- src/raw_printer.rs: get_closed_or_error. -/
def get_closed_or_error (self : RawPrinter) : Bool := self.state.flags.closed_or_error

/-- src/raw_printer.rs: get_finished. -/
def get_finished (self : RawPrinter) : Bool := self.state.flags.finished

/-- src/raw_printer.rs: get_prepared. -/
def get_prepared (self : RawPrinter) : Bool := self.state.flags.prepared

/-- src/raw_printer.rs: get_link_state. -/
def get_link_state (self : RawPrinter) : String := self.state.flags.link_state

/-- src/raw_printer.rs: get_bed_temp. -/
def get_bed_temp (self : RawPrinter) : ℚ := self.telemetry.bed_temp

/-- src/raw_printer.rs: get_target_bed_temp. -/
def get_target_bed_temp (self : RawPrinter) : ℚ := self.temperature.bed.target

/-- src/raw_printer.rs: get_nozzle_temp. -/
def get_nozzle_temp (self : RawPrinter) : ℚ := self.telemetry.nozzle_temp

/-- src/raw_printer.rs: get_target_nozzle_temp. -/
def get_target_nozzle_temp (self : RawPrinter) : ℚ := self.temperature.nozzle.target

/-- src/raw_printer.rs: get_material_telemetry. -/
def get_material_telemetry (self : RawPrinter) : String := self.telemetry.material

/-- src/raw_printer.rs: get_z_height_telemetry. -/
def get_z_height_telemetry (self : RawPrinter) : ℚ := self.telemetry.z_height

/-- src/raw_printer.rs: get_print_speed_telemetry. -/
def get_print_speed_telemetry (self : RawPrinter) : ℚ := self.telemetry.print_speed

/-- src/raw_printer.rs: get_axis_x_telemetry. -/
def get_axis_x_telemetry (self : RawPrinter) : Option ℚ := self.telemetry.axis_x

/-- src/raw_printer.rs: get_axis_y_telemetry. -/
def get_axis_y_telemetry (self : RawPrinter) : Option ℚ := self.telemetry.axis_y

end RawPrinter

/-- A transport-level failure from the external HTTP client (reqwest),
covering both the send and the body-read steps. -/
structure TransportError where
  message : String
deriving DecidableEq

/-- The raw response body returned by the external transport for a
transport-successful request, paired with the external JSON parser's verdict
on the body text: parsed is the JSON value when the text parses, none
otherwise. -/
structure Body where
  raw : String
  parsed : Option Json

/-- The outcome of one network call made by the external transport. -/
abbrev TransportResult := Except TransportError Body

/-- The error cases a client call surfaces through its boxed error value:
a transport failure, the empty-response rejection of src/lib.rs, or a
serde_json deserialization failure. -/
inductive ClientError where
  | transport (e : TransportError)
  | emptyResponse
  | malformed
deriving DecidableEq

/-- Unicode White_Space, the character class trimmed by Rust's str::trim. -/
def isRustWhitespace (c : Char) : Bool :=
  (0x09 ≤ c.toNat && c.toNat ≤ 0x0D) || c.toNat == 0x20 || c.toNat == 0x85 ||
  c.toNat == 0xA0 || c.toNat == 0x1680 ||
  (0x2000 ≤ c.toNat && c.toNat ≤ 0x200A) || c.toNat == 0x2028 ||
  c.toNat == 0x2029 || c.toNat == 0x202F || c.toNat == 0x205F ||
  c.toNat == 0x3000

/-- Rust str::trim: remove leading and trailing whitespace. -/
def rustTrim (s : String) : String :=
  ⟨((s.data.dropWhile isRustWhitespace).reverse.dropWhile isRustWhitespace).reverse⟩

/-- serde_json::from_str::<RawPrinter>: run the external text-level parser,
then the derived Deserialize on the resulting JSON value. -/
def from_str (body : Body) : Option RawPrinter :=
  body.parsed.bind RawPrinter.fromJson

/-- src/lib.rs: pub struct PrinterBuilder. -/
structure PrinterBuilder where
  address : String
  api_key : String
  port : ℕ
  auto_refresh : Option ℕ
deriving DecidableEq

/-- src/lib.rs: pub struct Printer. The reqwest client handle is omitted: it
holds no observable state in this model; the outcome of each network call is
passed to the operation performing it. -/
structure Printer where
  address : String
  api_key : String
  port : ℕ
  printer : Option RawPrinter
  last_refresh : Option ℕ
  auto_refresh : Option ℕ
deriving DecidableEq

namespace PrinterBuilder

/-- src/lib.rs: PrinterBuilder::new, defaulting the port to 80 and
auto_refresh to 2 seconds (in nanoseconds). -/
def new (address api_key : String) : PrinterBuilder :=
  { address, api_key, port := 80, auto_refresh := some (2 * 1000000000) }

/-- src/lib.rs: PrinterBuilder::port (renamed here because the builder method
shares its name with the struct field). -/
def withPort (self : PrinterBuilder) (port : ℕ) : PrinterBuilder :=
  { self with port }

/-- src/lib.rs: PrinterBuilder::auto_refresh (renamed here because the builder
method shares its name with the struct field). -/
def withAutoRefresh (self : PrinterBuilder) (auto_refresh : ℕ) : PrinterBuilder :=
  { self with auto_refresh := some auto_refresh }

/-- src/lib.rs: PrinterBuilder::build. -/
def build (self : PrinterBuilder) : Printer :=
  { address := self.address, api_key := self.api_key, port := self.port,
    printer := none, last_refresh := none, auto_refresh := self.auto_refresh }

end PrinterBuilder

namespace Printer

/-- src/lib.rs: Printer::get_version. It takes a shared reference, so the
cache fields cannot be read or written; the raw body text is returned as-is
on any transport-successful response. -/
def get_version (_self : Printer) (resp : TransportResult) : Except ClientError String :=
  match resp with
  | .error e => .error (.transport e)
  | .ok body => .ok body.raw

/-- src/lib.rs: Printer::get_printer_info. The empty-response check runs on
the trimmed body text before deserialization; the cache fields are never
touched (the function returns the decoded value directly). -/
def get_printer_info (self : Printer) (resp : TransportResult) :
    Except ClientError RawPrinter × Printer :=
  match resp with
  | .error e => (.error (.transport e), self)
  | .ok body =>
      if (rustTrim body.raw).isEmpty then (.error .emptyResponse, self)
      else
        match from_str body with
        | none => (.error .malformed, self)
        | some rp => (.ok rp, self)

/-- src/lib.rs: Printer::refresh. now is the Instant::now() reading stored on
success; both error returns happen before either cache field is assigned. -/
def refresh (self : Printer) (resp : TransportResult) (now : ℕ) :
    Except ClientError Unit × Printer :=
  match resp with
  | .error e => (.error (.transport e), self)
  | .ok body =>
      if (rustTrim body.raw).isEmpty then (.error .emptyResponse, self)
      else
        match from_str body with
        | none => (.error .malformed, self)
        | some rp =>
            (.ok (), { self with printer := some rp, last_refresh := some now })

/-- src/lib.rs: Printer::change_address. -/
def change_address (self : Printer) (address : String) : Printer :=
  { self with address }

/-- src/lib.rs: Printer::change_api_key. -/
def change_api_key (self : Printer) (api_key : String) : Printer :=
  { self with api_key }

/-- The staleness decision of Printer::refresh_if_necessary (the inline match
of src/lib.rs lines 318-322): time.elapsed() is now - time with saturating
subtraction, as for Rust's monotonic Instant. -/
def should_refresh (self : Printer) (now : ℕ) : Bool :=
  match self.last_refresh, self.auto_refresh with
  | some time, some duration => decide (now - time > duration)
  | none, _ => true
  | _, _ => false

/-- src/lib.rs: Printer::refresh_if_necessary. -/
def refresh_if_necessary (self : Printer) (resp : TransportResult) (now : ℕ) :
    Except ClientError Unit × Printer :=
  if self.should_refresh now then self.refresh resp now
  else (.ok (), self)

/-- src/lib.rs: Printer::get_nozzle_temp. A none result models the panic of
the .unwrap() on an empty cache; it is proved unreachable below. -/
def get_nozzle_temp (self : Printer) (resp : TransportResult) (now : ℕ) :
    Option (Except ClientError ℚ × Printer) :=
  match self.refresh_if_necessary resp now with
  | (.error e, p) => some (.error e, p)
  | (.ok _, p) =>
      match p.printer with
      | some rp => some (.ok rp.get_nozzle_temp, p)
      | none => none

/-- src/lib.rs: Printer::get_bed_temp. A none result models the panic of
the .unwrap() on an empty cache; it is proved unreachable below. -/
def get_bed_temp (self : Printer) (resp : TransportResult) (now : ℕ) :
    Option (Except ClientError ℚ × Printer) :=
  match self.refresh_if_necessary resp now with
  | (.error e, p) => some (.error e, p)
  | (.ok _, p) =>
      match p.printer with
      | some rp => some (.ok rp.get_bed_temp, p)
      | none => none

/-- The cache-pair invariant: the snapshot and the last-refresh timestamp are
present or absent together. -/
def CacheInv (self : Printer) : Prop :=
  self.printer.isSome = self.last_refresh.isSome

instance (p : Printer) : Decidable p.CacheInv := by
  unfold CacheInv
  infer_instance

end Printer

/-- The top-level field list of the example JSON payload of spec section 8,
as parsed by the external JSON parser. -/
def examplePayloadFields : List (String × Json) :=
    [("temperature", .obj
        [("tool0", .obj [("actual", .num ((2202 : ℚ)/10)), ("target", .num (220 : ℚ))]),
         ("bed", .obj [("actual", .num ((697 : ℚ)/10)), ("target", .num (70 : ℚ))])]),
     ("sd", .obj [("ready", .bool false)]),
     ("state", .obj
        [("text", .str ("Printing")),
         ("flags", .obj
            [("operational", .bool false), ("paused", .bool false),
             ("printing", .bool true), ("cancelling", .bool false),
             ("pausing", .bool false), ("sdReady", .bool false),
             ("error", .bool false), ("ready", .bool false),
             ("closedOrError", .bool false), ("finished", .bool false),
             ("prepared", .bool false), ("link_state", .str ("PRINTING"))])]),
     ("telemetry", .obj
        [("bed_temp", .num ((697 : ℚ)/10)), ("nozzle_temp", .num ((2202 : ℚ)/10)),
         ("material", .str (" - ")), ("z_height", .num ((168 : ℚ)/10)),
         ("print_speed", .num (100 : ℚ)), ("axis_x", .null), ("axis_y", .null),
         ("axis_z", .num ((168 : ℚ)/10))]),
     ("storage", .obj
        [("local", .obj
            [("free_space", .num (56813572096 : ℚ)),
             ("total_space", .num (61273088000 : ℚ))]),
         ("sd_card", .null)])]

/-- The example JSON payload of spec section 8, as parsed by the external
JSON parser. -/
def examplePayload : Json := .obj examplePayloadFields

/-- The snapshot the example payload decodes to. -/
def examplePrinter : RawPrinter :=
  { temperature :=
      { nozzle := { actual := (2202 : ℚ)/10, target := (220 : ℚ) },
        bed := { actual := (697 : ℚ)/10, target := (70 : ℚ) } },
    sd := { ready := false },
    state :=
      { text := ("Printing"),
        flags :=
          { operational := false, paused := false, printing := true,
            cancelling := false, pausing := false, sd_ready := false,
            error := false, ready := false, closed_or_error := false,
            finished := false, prepared := false, link_state := ("PRINTING") } },
    telemetry :=
      { bed_temp := (697 : ℚ)/10, nozzle_temp := (2202 : ℚ)/10,
        material := (" - "), z_height := (168 : ℚ)/10,
        print_speed := (100 : ℚ), axis_x := none, axis_y := none,
        axis_z := some ((168 : ℚ)/10) },
    storage :=
      { «local» := some { free_space := 56813572096, total_space := 61273088000 },
        sd_card := none } }

/-- examplePrinter with a different link_state, used as a cached snapshot
distinguishable from a newly fetched one. -/
def idlePrinter : RawPrinter :=
  { examplePrinter with
      state :=
        { examplePrinter.state with
            flags := { examplePrinter.state.flags with link_state := ("IDLE") } } }

/-- A transport error fixture. -/
def connErr : TransportError := { message := ("connection refused") }

/-- A transport-successful body whose text parses to examplePayload. -/
def goodBody : Body :=
  { raw := ("example payload text"), parsed := some examplePayload }

/-- A client state with a snapshot cached at timestamp 0 under a 5
nanosecond TTL. -/
def pCached : Printer :=
  { address := ("addr"), api_key := ("key"), port := 80,
    printer := some examplePrinter, last_refresh := some 0,
    auto_refresh := some 5 }

/-- A client state caching idlePrinter at timestamp 0 under a 10 nanosecond
TTL. -/
def pCachedIdle : Printer :=
  { address := ("addr"), api_key := ("key"), port := 80,
    printer := some idlePrinter, last_refresh := some 0,
    auto_refresh := some 10 }

/-- A client state with refresh disabled and a snapshot cached at
timestamp 0. -/
def pDisabled : Printer :=
  { address := ("addr"), api_key := ("key"), port := 80,
    printer := some examplePrinter, last_refresh := some 0,
    auto_refresh := none }

/-- The trimmed body text is empty exactly when every character of the body
is whitespace. -/
theorem rustTrim_isEmpty_iff (s : String) :
    (rustTrim s).isEmpty = true ↔ s.data.all isRustWhitespace = true := by
  rw [String.isEmpty_iff, List.all_eq_true]
  unfold rustTrim
  constructor
  · intro h x hx
    have hnil : ((s.data.dropWhile isRustWhitespace).reverse.dropWhile isRustWhitespace).reverse
        = [] := by
      have := congrArg String.data h
      simpa using this
    rw [List.reverse_eq_nil_iff, List.dropWhile_eq_nil_iff] at hnil
    have hdrop : ∀ y ∈ s.data.dropWhile isRustWhitespace, isRustWhitespace y = true := by
      intro y hy
      exact hnil y (List.mem_reverse.mpr hy)
    have hsplit := List.takeWhile_append_dropWhile isRustWhitespace s.data
    rw [← hsplit] at hx
    rcases List.mem_append.mp hx with hx1 | hx2
    · exact List.mem_takeWhile_imp hx1
    · exact hdrop x hx2
  · intro h
    have hnil : s.data.dropWhile isRustWhitespace = [] :=
      List.dropWhile_eq_nil_iff.mpr h
    rw [hnil]
    rfl

/-- Filtering an object's field list with a predicate that keeps every entry
whose key is k does not change the values bound to k. -/
theorem Json.values_filter (q : String × Json → Bool) (k : String)
    (h : ∀ v, q (k, v) = true) (l : List (String × Json)) :
    Json.values (l.filter q) k = Json.values l k := by
  induction l with
  | nil => rfl
  | cons pr t ih =>
      obtain ⟨k1, v⟩ := pr
      by_cases hk : k1 = k
      · subst hk
        rw [List.filter_cons, if_pos (h v)]
        unfold Json.values at ih ⊢
        rw [List.filterMap_cons, List.filterMap_cons]
        simp only [if_pos rfl]
        rw [ih]
      · rcases hq : q (k1, v) with _ | _
        · rw [List.filter_cons, if_neg (by simp [hq])]
          unfold Json.values at ih ⊢
          rw [List.filterMap_cons]
          simp only [hk, if_false]
          exact ih
        · rw [List.filter_cons, if_pos hq]
          unfold Json.values at ih ⊢
          rw [List.filterMap_cons, List.filterMap_cons]
          simp only [hk, if_false]
          exact ih

/-- reqField is unchanged by a filter that keeps every entry with key k. -/
theorem Json.reqField_filter (q : String × Json → Bool) (k : String)
    (h : ∀ v, q (k, v) = true) (l : List (String × Json)) :
    Json.reqField (l.filter q) k = Json.reqField l k := by
  unfold Json.reqField
  rw [Json.values_filter q k h l]

/-- optField is unchanged by a filter that keeps every entry with key k. -/
theorem Json.optField_filter (q : String × Json → Bool) (k : String)
    (h : ∀ v, q (k, v) = true) (l : List (String × Json)) :
    Json.optField (l.filter q) k = Json.optField l k := by
  unfold Json.optField
  rw [Json.values_filter q k h l]

/-- values distributes over list append. -/
theorem Json.values_append (l1 l2 : List (String × Json)) (k : String) :
    Json.values (l1 ++ l2) k = Json.values l1 k ++ Json.values l2 k := by
  unfold Json.values
  exact List.filterMap_append l1 l2 _

/-- A field list none of whose keys is k binds no value to k. -/
theorem Json.values_eq_nil (l : List (String × Json)) (k : String)
    (h : ∀ pr ∈ l, pr.1 ≠ k) : Json.values l k = [] := by
  unfold Json.values
  rw [List.filterMap_eq_nil_iff]
  intro pr hpr
  rw [if_neg (h pr hpr)]

/-- The derived Deserialize of Temp depends only on its recognized fields. -/
theorem fromJson_filter_temp (l : List (String × Json)) :
    Temp.fromJson (.obj (l.filter (fun pr => Temp.fieldNames.contains pr.1))) =
      Temp.fromJson (.obj l) := by
  simp only [Temp.fromJson]
  rw [Json.reqField_filter _ _ (fun v => rfl) l,
    Json.reqField_filter _ _ (fun v => rfl) l]

/-- The derived Deserialize of PrinterTemperature depends only on its
recognized fields. -/
theorem fromJson_filter_printerTemperature (l : List (String × Json)) :
    PrinterTemperature.fromJson
        (.obj (l.filter (fun pr => PrinterTemperature.fieldNames.contains pr.1))) =
      PrinterTemperature.fromJson (.obj l) := by
  simp only [PrinterTemperature.fromJson]
  rw [Json.reqField_filter _ _ (fun v => rfl) l,
    Json.reqField_filter _ _ (fun v => rfl) l]

/-- The derived Deserialize of PrinterSd depends only on its recognized
fields. -/
theorem fromJson_filter_printerSd (l : List (String × Json)) :
    PrinterSd.fromJson (.obj (l.filter (fun pr => PrinterSd.fieldNames.contains pr.1))) =
      PrinterSd.fromJson (.obj l) := by
  simp only [PrinterSd.fromJson]
  rw [Json.reqField_filter _ _ (fun v => rfl) l]

/-- The derived Deserialize of PrinterFlags depends only on its recognized
fields. -/
theorem fromJson_filter_printerFlags (l : List (String × Json)) :
    PrinterFlags.fromJson
        (.obj (l.filter (fun pr => PrinterFlags.fieldNames.contains pr.1))) =
      PrinterFlags.fromJson (.obj l) := by
  simp only [PrinterFlags.fromJson]
  rw [Json.reqField_filter _ _ (fun v => rfl) l,
    Json.reqField_filter _ _ (fun v => rfl) l,
    Json.reqField_filter _ _ (fun v => rfl) l,
    Json.reqField_filter _ _ (fun v => rfl) l,
    Json.reqField_filter _ _ (fun v => rfl) l,
    Json.reqField_filter _ _ (fun v => rfl) l,
    Json.reqField_filter _ _ (fun v => rfl) l,
    Json.reqField_filter _ _ (fun v => rfl) l,
    Json.reqField_filter _ _ (fun v => rfl) l,
    Json.reqField_filter _ _ (fun v => rfl) l,
    Json.reqField_filter _ _ (fun v => rfl) l,
    Json.reqField_filter _ _ (fun v => rfl) l]

/-- The derived Deserialize of PrinterState depends only on its recognized
fields. -/
theorem fromJson_filter_printerState (l : List (String × Json)) :
    PrinterState.fromJson
        (.obj (l.filter (fun pr => PrinterState.fieldNames.contains pr.1))) =
      PrinterState.fromJson (.obj l) := by
  simp only [PrinterState.fromJson]
  rw [Json.reqField_filter _ _ (fun v => rfl) l,
    Json.reqField_filter _ _ (fun v => rfl) l]

/-- The derived Deserialize of PrinterTelemetry depends only on its
recognized fields. -/
theorem fromJson_filter_printerTelemetry (l : List (String × Json)) :
    PrinterTelemetry.fromJson
        (.obj (l.filter (fun pr => PrinterTelemetry.fieldNames.contains pr.1))) =
      PrinterTelemetry.fromJson (.obj l) := by
  simp only [PrinterTelemetry.fromJson]
  rw [Json.reqField_filter _ _ (fun v => rfl) l,
    Json.reqField_filter _ _ (fun v => rfl) l,
    Json.reqField_filter _ _ (fun v => rfl) l,
    Json.reqField_filter _ _ (fun v => rfl) l,
    Json.reqField_filter _ _ (fun v => rfl) l,
    Json.optField_filter _ _ (fun v => rfl) l,
    Json.optField_filter _ _ (fun v => rfl) l,
    Json.optField_filter _ _ (fun v => rfl) l]

/-- The derived Deserialize of PrinterStorageInfo depends only on its
recognized fields. -/
theorem fromJson_filter_printerStorageInfo (l : List (String × Json)) :
    PrinterStorageInfo.fromJson
        (.obj (l.filter (fun pr => PrinterStorageInfo.fieldNames.contains pr.1))) =
      PrinterStorageInfo.fromJson (.obj l) := by
  simp only [PrinterStorageInfo.fromJson]
  rw [Json.reqField_filter _ _ (fun v => rfl) l,
    Json.reqField_filter _ _ (fun v => rfl) l]

/-- The derived Deserialize of PrinterStorage depends only on its recognized
fields. -/
theorem fromJson_filter_printerStorage (l : List (String × Json)) :
    PrinterStorage.fromJson
        (.obj (l.filter (fun pr => PrinterStorage.fieldNames.contains pr.1))) =
      PrinterStorage.fromJson (.obj l) := by
  simp only [PrinterStorage.fromJson]
  rw [Json.optField_filter _ _ (fun v => rfl) l,
    Json.optField_filter _ _ (fun v => rfl) l]

/-- The derived Deserialize of RawPrinter depends only on its recognized
fields. -/
theorem fromJson_filter_rawPrinter (l : List (String × Json)) :
    RawPrinter.fromJson
        (.obj (l.filter (fun pr => RawPrinter.fieldNames.contains pr.1))) =
      RawPrinter.fromJson (.obj l) := by
  simp only [RawPrinter.fromJson]
  rw [Json.reqField_filter _ _ (fun v => rfl) l,
    Json.reqField_filter _ _ (fun v => rfl) l,
    Json.reqField_filter _ _ (fun v => rfl) l,
    Json.reqField_filter _ _ (fun v => rfl) l,
    Json.reqField_filter _ _ (fun v => rfl) l]

/-- Appending entries with unrecognized keys to a payload object does not
change what RawPrinter's derived Deserialize produces. -/
theorem RawPrinter.fromJson_append_unknown (l extra : List (String × Json))
    (h : ∀ pr ∈ extra, RawPrinter.fieldNames.contains pr.1 = false) :
    RawPrinter.fromJson (.obj (l ++ extra)) = RawPrinter.fromJson (.obj l) := by
  have hval : ∀ k : String, RawPrinter.fieldNames.contains k = true →
      Json.values (l ++ extra) k = Json.values l k := by
    intro k hk
    rw [Json.values_append, Json.values_eq_nil extra k, List.append_nil]
    intro pr hpr hkk
    have hc := h pr hpr
    rw [hkk, hk] at hc
    cases hc
  have hreq : ∀ k : String, RawPrinter.fieldNames.contains k = true →
      Json.reqField (l ++ extra) k = Json.reqField l k := by
    intro k hk
    unfold Json.reqField
    rw [hval k hk]
  simp only [RawPrinter.fromJson]
  rw [hreq ("temperature") rfl, hreq ("sd") rfl, hreq ("state") rfl,
    hreq ("telemetry") rfl, hreq ("storage") rfl]

/-- refresh either fails and returns the state untouched, or succeeds and
replaces both cache fields together. -/
theorem Printer.refresh_cases (p : Printer) (resp : TransportResult) (now : ℕ) :
    (∃ e, p.refresh resp now = (.error e, p)) ∨
      ∃ rp, p.refresh resp now =
        (.ok (), { p with printer := some rp, last_refresh := some now }) := by
  rcases resp with e | body
  · exact .inl ⟨.transport e, rfl⟩
  · by_cases he : (rustTrim body.raw).isEmpty
    · refine .inl ⟨.emptyResponse, ?_⟩
      simp [Printer.refresh, he]
    · cases hf : from_str body with
      | none =>
          refine .inl ⟨.malformed, ?_⟩
          simp [Printer.refresh, he, hf]
      | some rp =>
          refine .inr ⟨rp, ?_⟩
          simp [Printer.refresh, he, hf]

/-- A failing call to refresh leaves the client state unchanged. -/
theorem Printer.refresh_error_state (p : Printer) (resp : TransportResult) (now : ℕ)
    (e : ClientError) (h : (p.refresh resp now).1 = .error e) :
    (p.refresh resp now).2 = p := by
  rcases Printer.refresh_cases p resp now with ⟨e1, heq⟩ | ⟨rp, heq⟩
  · rw [heq]
  · rw [heq] at h
    cases h

/-- A successful call to refresh stores the decoded snapshot together with
the fetch timestamp. -/
theorem Printer.refresh_ok_state (p : Printer) (resp : TransportResult) (now : ℕ)
    (u : Unit) (h : (p.refresh resp now).1 = .ok u) :
    ∃ rp, (p.refresh resp now).2 =
      { p with printer := some rp, last_refresh := some now } := by
  rcases Printer.refresh_cases p resp now with ⟨e1, heq⟩ | ⟨rp, heq⟩
  · rw [heq] at h
    cases h
  · rw [heq]
    exact ⟨rp, rfl⟩

/-- When the staleness decision is negative, the cache holds a timestamp. -/
theorem Printer.last_refresh_isSome_of_stale_false (p : Printer) (now : ℕ)
    (h : p.should_refresh now = false) : p.last_refresh.isSome = true := by
  unfold Printer.should_refresh at h
  cases hl : p.last_refresh with
  | none =>
      rw [hl] at h
      cases ha : p.auto_refresh with
      | none => rw [ha] at h; cases h
      | some d => rw [ha] at h; cases h
  | some t => rfl

/-- When the staleness decision is negative, get_nozzle_temp answers from the
cached snapshot without consulting the transport and leaves the state
unchanged. -/
theorem Printer.get_nozzle_temp_cached (p : Printer) (resp : TransportResult) (now : ℕ)
    (rp : RawPrinter) (hsf : p.should_refresh now = false) (hp : p.printer = some rp) :
    p.get_nozzle_temp resp now = some (.ok rp.get_nozzle_temp, p) := by
  unfold Printer.get_nozzle_temp Printer.refresh_if_necessary
  rw [hsf]
  simp [hp]

/-- When the staleness decision is negative, get_bed_temp answers from the
cached snapshot without consulting the transport and leaves the state
unchanged. -/
theorem Printer.get_bed_temp_cached (p : Printer) (resp : TransportResult) (now : ℕ)
    (rp : RawPrinter) (hsf : p.should_refresh now = false) (hp : p.printer = some rp) :
    p.get_bed_temp resp now = some (.ok rp.get_bed_temp, p) := by
  unfold Printer.get_bed_temp Printer.refresh_if_necessary
  rw [hsf]
  simp [hp]

/-- What get_printer_info returns, as a function of the transport response
alone. -/
def getPrinterInfoSpec : TransportResult → Except ClientError RawPrinter
  | .error e => .error (.transport e)
  | .ok body =>
      if (rustTrim body.raw).isEmpty then .error .emptyResponse
      else
        match from_str body with
        | none => .error .malformed
        | some rp => .ok rp

/-- get_printer_info never modifies the client state. -/
theorem Printer.get_printer_info_state (p : Printer) (resp : TransportResult) :
    (p.get_printer_info resp).2 = p := by
  rcases resp with e | body
  · rfl
  · by_cases he : (rustTrim body.raw).isEmpty
    · simp [Printer.get_printer_info, he]
    · cases hf : from_str body with
      | none => simp [Printer.get_printer_info, he, hf]
      | some rp => simp [Printer.get_printer_info, he, hf]

/-- The value get_printer_info returns is a function of the transport
response alone. -/
theorem Printer.get_printer_info_fst (p : Printer) (resp : TransportResult) :
    (p.get_printer_info resp).1 = getPrinterInfoSpec resp := by
  rcases resp with e | body
  · rfl
  · by_cases he : (rustTrim body.raw).isEmpty
    · simp [Printer.get_printer_info, getPrinterInfoSpec, he]
    · cases hf : from_str body with
      | none => simp [Printer.get_printer_info, getPrinterInfoSpec, he, hf]
      | some rp => simp [Printer.get_printer_info, getPrinterInfoSpec, he, hf]

/-- C10: get_version takes the client by shared reference, so it can neither
read nor mutate the cached snapshot or last-refresh timestamp (its result is
the same for every client state); it consults the transport on every call and
returns the raw body text untouched on any transport-successful response,
with no empty-response check — an empty or whitespace-only body is returned
as Ok. -/
theorem c10_get_version_passthrough (p q : Printer) (e : TransportError) (body : Body) :
    p.get_version (.error e) = .error (.transport e) ∧
    p.get_version (.ok body) = .ok body.raw ∧
    p.get_version (.ok body) = q.get_version (.ok body) ∧
    p.get_version (.ok { raw := (""), parsed := none }) = .ok ("") ∧
    p.get_version (.ok { raw := ("   "), parsed := none }) = .ok ("   ") :=
  ⟨rfl, rfl, rfl, rfl, rfl⟩

/-- C2: under a TimeToLive policy with a cached timestamp, a read whose
elapsed time since the last successful fetch is exactly the TTL does not
refresh (the snapshot is still fresh), while a read at any strictly greater
elapsed time refreshes. -/
theorem c2_ttl_boundary_strict (p : Printer) (resp : TransportResult) (t d now : ℕ)
    (hl : p.last_refresh = some t) (ha : p.auto_refresh = some d) :
    (now - t = d → p.refresh_if_necessary resp now = (.ok (), p)) ∧
    (now - t > d → p.refresh_if_necessary resp now = p.refresh resp now) := by
  constructor
  · intro he
    unfold Printer.refresh_if_necessary Printer.should_refresh
    rw [hl, ha]
    simp [he]
  · intro hgt
    unfold Printer.refresh_if_necessary Printer.should_refresh
    rw [hl, ha]
    simp [hgt]

/-- Witness for c2_ttl_boundary_strict: with TTL 5 and last fetch at 0, a
read at time 5 returns Ok without refreshing, and a read at time 6
refreshes. -/
theorem c2_ttl_boundary_strict_witness :
    pCached.refresh_if_necessary (.error connErr) 5 = (.ok (), pCached) ∧
    pCached.refresh_if_necessary (.error connErr) 6 = pCached.refresh (.error connErr) 6 :=
  ⟨(c2_ttl_boundary_strict pCached (.error connErr) 0 5 5 rfl rfl).1 rfl,
   (c2_ttl_boundary_strict pCached (.error connErr) 0 5 6 rfl rfl).2 (by decide)⟩

/-- C1: the staleness decision behind the typed getters is positive exactly
when no last-refresh timestamp is cached or the TimeToLive policy's duration
is strictly exceeded; refresh_if_necessary refreshes exactly on a positive
decision; on a negative decision the getters return the cached snapshot with
the state unchanged for every transport outcome; a freshly built client
always decides to fetch; and with auto-refresh disabled the decision is
negative whenever a timestamp is cached, regardless of elapsed time. -/
theorem c1_getter_refresh_policy (p : Printer) (resp : TransportResult) (now : ℕ) :
    (p.should_refresh now = true ↔
        p.last_refresh = none ∨
          ∃ t d, p.last_refresh = some t ∧ p.auto_refresh = some d ∧ now - t > d) ∧
    (p.refresh_if_necessary resp now =
        if p.should_refresh now then p.refresh resp now else (.ok (), p)) ∧
    (∀ rp, p.should_refresh now = false → p.printer = some rp →
        p.get_nozzle_temp resp now = some (.ok rp.get_nozzle_temp, p) ∧
        p.get_bed_temp resp now = some (.ok rp.get_bed_temp, p)) ∧
    (∀ a k, ((PrinterBuilder.new a k).build).should_refresh now = true) ∧
    (p.auto_refresh = none → ∀ t, p.last_refresh = some t →
        p.should_refresh now = false) := by
  refine ⟨?_, rfl, ?_, ?_, ?_⟩
  · unfold Printer.should_refresh
    rcases hl : p.last_refresh with _ | t <;> rcases ha : p.auto_refresh with _ | d <;>
      simp [hl, ha]
  · intro rp hsf hcache
    exact ⟨Printer.get_nozzle_temp_cached p resp now rp hsf hcache,
      Printer.get_bed_temp_cached p resp now rp hsf hcache⟩
  · intro a k
    rfl
  · intro hn t ht
    unfold Printer.should_refresh
    rw [ht, hn]

/-- Witness for c1_getter_refresh_policy: with a fresh cached snapshot the
getter answers from the cache even when the transport would fail, and with
auto-refresh disabled the decision stays negative at an arbitrarily late
read. -/
theorem c1_getter_refresh_policy_witness :
    pCached.get_nozzle_temp (.error connErr) 3 =
      some (.ok examplePrinter.get_nozzle_temp, pCached) ∧
    pDisabled.should_refresh 1000000000000 = false :=
  ⟨((c1_getter_refresh_policy pCached (.error connErr) 3).2.2.1 examplePrinter rfl rfl).1,
   (c1_getter_refresh_policy pDisabled (.error connErr) 1000000000000).2.2.2.2 rfl 0 rfl⟩

/-- C3: when a refresh attempt fails at any stage — transport error, empty or
whitespace-only body, or JSON decode failure — the cached snapshot and
last-refresh timestamp are left exactly as they were, the failing call
returns the error (not the previously cached snapshot), and a subsequent
non-forced read that answers from the cache still returns the previously
cached snapshot unchanged. -/
theorem c3_failed_refresh_preserves_cache (p : Printer) (resp : TransportResult)
    (now now2 : ℕ) :
    (∀ e, (p.refresh resp now).1 = .error e → (p.refresh resp now).2 = p) ∧
    (∀ e, resp = .error e → p.refresh resp now = (.error (.transport e), p)) ∧
    (∀ body, resp = .ok body → (rustTrim body.raw).isEmpty = true →
        p.refresh resp now = (.error .emptyResponse, p)) ∧
    (∀ body, resp = .ok body → (rustTrim body.raw).isEmpty = false →
        from_str body = none → p.refresh resp now = (.error .malformed, p)) ∧
    (∀ e rp, (p.refresh resp now).1 = .error e → p.printer = some rp →
        p.should_refresh now2 = false → ∀ resp2,
          ((p.refresh resp now).2).get_nozzle_temp resp2 now2 =
            some (.ok rp.get_nozzle_temp, p)) := by
  refine ⟨?_, ?_, ?_, ?_, ?_⟩
  · intro e h
    exact Printer.refresh_error_state p resp now e h
  · intro e h
    subst h
    rfl
  · intro body h he
    subst h
    simp [Printer.refresh, he]
  · intro body h he hf
    subst h
    simp [Printer.refresh, he, hf]
  · intro e rp herr hcache hsf resp2
    rw [Printer.refresh_error_state p resp now e herr]
    exact Printer.get_nozzle_temp_cached p resp2 now2 rp hsf hcache

/-- Witness for c3_failed_refresh_preserves_cache: with refresh disabled and
a cached snapshot, a failed refresh leaves the state unchanged and the next
read answers from the untouched cache. -/
theorem c3_failed_refresh_preserves_cache_witness :
    (pDisabled.refresh (.error connErr) 9).2 = pDisabled ∧
    ((pDisabled.refresh (.error connErr) 9).2).get_nozzle_temp (.ok goodBody) 99 =
      some (.ok examplePrinter.get_nozzle_temp, pDisabled) := by
  have h := c3_failed_refresh_preserves_cache pDisabled (.error connErr) 9 99
  exact ⟨h.1 (.transport connErr) rfl,
    h.2.2.2.2 (.transport connErr) examplePrinter rfl rfl rfl (.ok goodBody)⟩

/-- C4: the cached snapshot and the last-refresh timestamp are Some together:
a freshly built client has both None, a successful refresh sets both
together, and every client operation preserves the pairing. -/
theorem c4_cache_pair_invariant (p : Printer) (resp : TransportResult) (now : ℕ)
    (h : p.CacheInv) :
    (∀ a k, ((PrinterBuilder.new a k).build).printer = none ∧
        ((PrinterBuilder.new a k).build).last_refresh = none ∧
        ((PrinterBuilder.new a k).build).CacheInv) ∧
    (∀ u, (p.refresh resp now).1 = .ok u →
        ∃ rp, (p.refresh resp now).2.printer = some rp ∧
          (p.refresh resp now).2.last_refresh = some now) ∧
    ((p.refresh resp now).2).CacheInv ∧
    ((p.refresh_if_necessary resp now).2).CacheInv ∧
    ((p.get_printer_info resp).2).CacheInv ∧
    (∀ r q, p.get_nozzle_temp resp now = some (r, q) → q.CacheInv) ∧
    (∀ r q, p.get_bed_temp resp now = some (r, q) → q.CacheInv) ∧
    (∀ a, (p.change_address a).CacheInv) ∧
    (∀ k, (p.change_api_key k).CacheInv) := by
  have hrefresh : ((p.refresh resp now).2).CacheInv := by
    rcases Printer.refresh_cases p resp now with ⟨e, heq⟩ | ⟨rp, heq⟩
    · rw [heq]
      exact h
    · rw [heq]
      rfl
  have hrif : ((p.refresh_if_necessary resp now).2).CacheInv := by
    unfold Printer.refresh_if_necessary
    by_cases hs : p.should_refresh now
    · rw [if_pos hs]
      exact hrefresh
    · rw [if_neg hs]
      exact h
  refine ⟨?_, ?_, hrefresh, hrif, ?_, ?_, ?_, ?_, ?_⟩
  · intro a k
    exact ⟨rfl, rfl, rfl⟩
  · intro u hu
    obtain ⟨rp, heq⟩ := Printer.refresh_ok_state p resp now u hu
    rw [heq]
    exact ⟨rp, rfl, rfl⟩
  · rw [Printer.get_printer_info_state]
    exact h
  · intro r q hq
    unfold Printer.get_nozzle_temp at hq
    rcases hrp : p.refresh_if_necessary resp now with ⟨r1, p1⟩
    rw [hrp] at hq hrif
    rcases r1 with e | u
    · simp at hq
      obtain ⟨h1, h2⟩ := hq
      subst h2
      exact hrif
    · simp only at hq
      cases hpp : p1.printer with
      | none => rw [hpp] at hq; simp at hq
      | some rp =>
          rw [hpp] at hq
          simp at hq
          obtain ⟨h1, h2⟩ := hq
          subst h2
          exact hrif
  · intro r q hq
    unfold Printer.get_bed_temp at hq
    rcases hrp : p.refresh_if_necessary resp now with ⟨r1, p1⟩
    rw [hrp] at hq hrif
    rcases r1 with e | u
    · simp at hq
      obtain ⟨h1, h2⟩ := hq
      subst h2
      exact hrif
    · simp only at hq
      cases hpp : p1.printer with
      | none => rw [hpp] at hq; simp at hq
      | some rp =>
          rw [hpp] at hq
          simp at hq
          obtain ⟨h1, h2⟩ := hq
          subst h2
          exact hrif
  · intro a
    exact h
  · intro k
    exact h

/-- Witness for c4_cache_pair_invariant: starting from a consistent cached
state, a successful refresh leaves the pairing intact. -/
theorem c4_cache_pair_invariant_witness :
    ((pCached.refresh (.ok goodBody) 7).2).CacheInv :=
  (c4_cache_pair_invariant pCached (.ok goodBody) 7 rfl).2.2.1

/-- C9: from any state satisfying the cache-pair invariant, a refresh_if_necessary
that returns Ok leaves a snapshot in the cache, so the unwrap in
get_nozzle_temp and get_bed_temp is never reached with None: both getters
always produce a value (Ok or Err) and never panic. -/
theorem c9_getters_never_panic (p : Printer) (resp : TransportResult) (now : ℕ)
    (h : p.CacheInv) :
    (∀ u p1, p.refresh_if_necessary resp now = (.ok u, p1) →
        p1.printer.isSome = true) ∧
    (p.get_nozzle_temp resp now).isSome = true ∧
    (p.get_bed_temp resp now).isSome = true := by
  have hkey : ∀ u p1, p.refresh_if_necessary resp now = (.ok u, p1) →
      p1.printer.isSome = true := by
    intro u p1 h1
    unfold Printer.refresh_if_necessary at h1
    by_cases hs : p.should_refresh now
    · rw [if_pos hs] at h1
      rcases Printer.refresh_cases p resp now with ⟨e, heq⟩ | ⟨rp, heq⟩
      · rw [heq] at h1
        cases h1
      · rw [heq] at h1
        have h2 := congrArg Prod.snd h1
        simp at h2
        subst h2
        rfl
    · rw [if_neg hs] at h1
      have h2 := congrArg Prod.snd h1
      simp at h2
      subst h2
      have hl := Printer.last_refresh_isSome_of_stale_false p now
        (Bool.of_not_eq_true hs)
      unfold Printer.CacheInv at h
      rw [h]
      exact hl
  refine ⟨hkey, ?_, ?_⟩
  · unfold Printer.get_nozzle_temp
    rcases hrp : p.refresh_if_necessary resp now with ⟨r1, p1⟩
    rcases r1 with e | u
    · rfl
    · have hp1 := hkey u p1 hrp
      cases hpp : p1.printer with
      | none => rw [hpp] at hp1; cases hp1
      | some rp => simp [hpp]
  · unfold Printer.get_bed_temp
    rcases hrp : p.refresh_if_necessary resp now with ⟨r1, p1⟩
    rcases r1 with e | u
    · rfl
    · have hp1 := hkey u p1 hrp
      cases hpp : p1.printer with
      | none => rw [hpp] at hp1; cases hp1
      | some rp => simp [hpp]

/-- Witness for c9_getters_never_panic: on a freshly built client whose
first fetch fails, both getters return a value (the error) rather than
panicking. -/
theorem c9_getters_never_panic_witness :
    ((((PrinterBuilder.new ("a") ("k")).build)).get_nozzle_temp (.error connErr) 0).isSome
        = true ∧
    ((((PrinterBuilder.new ("a") ("k")).build)).get_bed_temp (.error connErr) 0).isSome
        = true :=
  ⟨(c9_getters_never_panic ((PrinterBuilder.new ("a") ("k")).build)
      (.error connErr) 0 rfl).2.1,
   (c9_getters_never_panic ((PrinterBuilder.new ("a") ("k")).build)
      (.error connErr) 0 rfl).2.2⟩

/-- C5: a response body that is empty or consists only of whitespace makes
get_printer_info and refresh fail with the empty-response error before any
parse is attempted (the outcome is the same whatever the parser would say),
while any body with a non-whitespace character is handed to the parser and
the outcome is exactly the parser and Deserialize verdict. -/
theorem c5_empty_body_rejected_before_parse (p : Printer) (body : Body) (now : ℕ) :
    ((rustTrim body.raw).isEmpty = true ↔ body.raw.data.all isRustWhitespace = true) ∧
    ((rustTrim body.raw).isEmpty = true →
        (p.get_printer_info (.ok body)).1 = .error .emptyResponse ∧
        (p.refresh (.ok body) now).1 = .error .emptyResponse ∧
        ∀ j, (p.get_printer_info (.ok { raw := body.raw, parsed := j })).1 =
          .error .emptyResponse) ∧
    ((rustTrim body.raw).isEmpty = false →
        (p.get_printer_info (.ok body)).1 =
          (match from_str body with
            | none => .error .malformed
            | some rp => .ok rp) ∧
        (p.refresh (.ok body) now).1 =
          (match from_str body with
            | none => .error .malformed
            | some _ => .ok ())) := by
  refine ⟨rustTrim_isEmpty_iff body.raw, ?_, ?_⟩
  · intro he
    refine ⟨?_, ?_, ?_⟩
    · simp [Printer.get_printer_info, he]
    · simp [Printer.refresh, he]
    · intro j
      simp [Printer.get_printer_info, he]
  · intro he
    constructor
    · cases hf : from_str body with
      | none => simp [Printer.get_printer_info, he, hf]
      | some rp => simp [Printer.get_printer_info, he, hf]
    · cases hf : from_str body with
      | none => simp [Printer.refresh, he, hf]
      | some rp => simp [Printer.refresh, he, hf]

/-- Witness for c5_empty_body_rejected_before_parse: a whitespace-only body
is rejected even though its text would parse to the example payload, and the
example body decodes successfully. -/
theorem c5_empty_body_rejected_before_parse_witness :
    (pCached.get_printer_info (.ok { raw := ("   "), parsed := some examplePayload })).1 =
      .error .emptyResponse ∧
    (pCached.get_printer_info (.ok goodBody)).1 = .ok examplePrinter := by
  constructor
  · exact ((c5_empty_body_rejected_before_parse pCached
      { raw := ("   "), parsed := some examplePayload } 0).2.1 rfl).1
  · have h := ((c5_empty_body_rejected_before_parse pCached goodBody 0).2.2 rfl).1
    rw [h]
    rfl

/-- C6: decoding the example payload of spec section 8 succeeds and the
snapshot's accessors return exactly the listed values: target nozzle 220,
target bed 70, sd_ready false, link_state PRINTING, bed temperature 69.7,
nozzle temperature 220.2, material " - ", axis_x absent, z-height 16.8,
local storage free 56813572096 of total 61273088000, and no sd_card
storage. -/
theorem c6_example_payload_round_trip :
    RawPrinter.fromJson examplePayload = some examplePrinter ∧
    examplePrinter.get_target_nozzle_temp = (220 : ℚ) ∧
    examplePrinter.get_target_bed_temp = (70 : ℚ) ∧
    examplePrinter.get_sd_ready = false ∧
    examplePrinter.get_link_state = ("PRINTING") ∧
    examplePrinter.get_bed_temp = (697 : ℚ)/10 ∧
    examplePrinter.get_nozzle_temp = (2202 : ℚ)/10 ∧
    examplePrinter.get_material_telemetry = (" - ") ∧
    examplePrinter.get_axis_x_telemetry = none ∧
    examplePrinter.get_z_height_telemetry = (168 : ℚ)/10 ∧
    examplePrinter.storage.«local» =
      some { free_space := 56813572096, total_space := 61273088000 } ∧
    examplePrinter.storage.sd_card = none :=
  ⟨rfl, rfl, rfl, rfl, rfl, rfl, rfl, rfl, rfl, rfl, rfl, rfl⟩

/-- C7 is false on the code: with a cached snapshot that is still fresh
(elapsed 3 under TTL 10), get_printer_info still consults the transport — a
transport failure surfaces instead of the cached snapshot — and a successful
call returns the newly decoded snapshot, distinct from the cached one, while
leaving the cached snapshot and last-refresh timestamp unchanged. -/
theorem c7_counterexample :
    pCachedIdle.should_refresh 3 = false ∧
    pCachedIdle.printer = some idlePrinter ∧
    pCachedIdle.get_printer_info (.error connErr) =
      (.error (.transport connErr), pCachedIdle) ∧
    pCachedIdle.get_printer_info (.ok goodBody) = (.ok examplePrinter, pCachedIdle) ∧
    idlePrinter ≠ examplePrinter ∧
    (pCachedIdle.get_printer_info (.ok goodBody)).2.printer = some idlePrinter ∧
    (pCachedIdle.get_printer_info (.ok goodBody)).2.last_refresh = some 0 := by
  refine ⟨rfl, rfl, rfl, rfl, ?_, rfl, rfl⟩
  intro hcontra
  have hls := congrArg (fun rp => rp.state.flags.link_state) hcontra
  simp only at hls
  exact absurd hls (by decide)

/-- C7 amended: get_printer_info does not follow the refresh-cache decision
algorithm: it performs the network fetch on every call — its result is a
function of the transport response alone, identical for every client state —
and it never modifies the cached snapshot or last-refresh timestamp.  The
decision algorithm is implemented by refresh_if_necessary (used by the typed
getters), and refresh is the operation that replaces the snapshot and the
timestamp together on success. -/
theorem c7_get_printer_info_always_fetches (p : Printer) (resp : TransportResult)
    (now : ℕ) :
    (p.get_printer_info resp).2 = p ∧
    (p.get_printer_info resp).1 = getPrinterInfoSpec resp ∧
    (∀ q : Printer, (q.get_printer_info resp).1 = (p.get_printer_info resp).1) ∧
    (p.refresh_if_necessary resp now =
        if p.should_refresh now then p.refresh resp now else (.ok (), p)) ∧
    (∀ u, (p.refresh resp now).1 = .ok u →
        ∃ rp, (p.refresh resp now).2 =
          { p with printer := some rp, last_refresh := some now }) := by
  refine ⟨Printer.get_printer_info_state p resp, Printer.get_printer_info_fst p resp,
    ?_, rfl, ?_⟩
  · intro q
    rw [Printer.get_printer_info_fst p resp, Printer.get_printer_info_fst q resp]
  · intro u hu
    exact Printer.refresh_ok_state p resp now u hu

/-- C8: a payload carrying all recognized fields with correct types decodes
identically when unknown or extra fields are present, at every level of the
schema: each derived Deserialize depends only on the entries whose keys it
recognizes, and appending unknown-key entries to the top-level payload
object leaves the decoded snapshot unchanged. -/
theorem c8_unknown_fields_ignored (l extra : List (String × Json)) :
    (Temp.fromJson (.obj (l.filter (fun pr => Temp.fieldNames.contains pr.1))) =
        Temp.fromJson (.obj l)) ∧
    (PrinterTemperature.fromJson
        (.obj (l.filter (fun pr => PrinterTemperature.fieldNames.contains pr.1))) =
        PrinterTemperature.fromJson (.obj l)) ∧
    (PrinterSd.fromJson (.obj (l.filter (fun pr => PrinterSd.fieldNames.contains pr.1))) =
        PrinterSd.fromJson (.obj l)) ∧
    (PrinterFlags.fromJson
        (.obj (l.filter (fun pr => PrinterFlags.fieldNames.contains pr.1))) =
        PrinterFlags.fromJson (.obj l)) ∧
    (PrinterState.fromJson
        (.obj (l.filter (fun pr => PrinterState.fieldNames.contains pr.1))) =
        PrinterState.fromJson (.obj l)) ∧
    (PrinterTelemetry.fromJson
        (.obj (l.filter (fun pr => PrinterTelemetry.fieldNames.contains pr.1))) =
        PrinterTelemetry.fromJson (.obj l)) ∧
    (PrinterStorageInfo.fromJson
        (.obj (l.filter (fun pr => PrinterStorageInfo.fieldNames.contains pr.1))) =
        PrinterStorageInfo.fromJson (.obj l)) ∧
    (PrinterStorage.fromJson
        (.obj (l.filter (fun pr => PrinterStorage.fieldNames.contains pr.1))) =
        PrinterStorage.fromJson (.obj l)) ∧
    (RawPrinter.fromJson
        (.obj (l.filter (fun pr => RawPrinter.fieldNames.contains pr.1))) =
        RawPrinter.fromJson (.obj l)) ∧
    ((∀ pr ∈ extra, RawPrinter.fieldNames.contains pr.1 = false) →
        RawPrinter.fromJson (.obj (l ++ extra)) = RawPrinter.fromJson (.obj l)) :=
  ⟨fromJson_filter_temp l, fromJson_filter_printerTemperature l,
   fromJson_filter_printerSd l, fromJson_filter_printerFlags l,
   fromJson_filter_printerState l, fromJson_filter_printerTelemetry l,
   fromJson_filter_printerStorageInfo l, fromJson_filter_printerStorage l,
   fromJson_filter_rawPrinter l,
   fun h => RawPrinter.fromJson_append_unknown l extra h⟩

/-- Witness for c8_unknown_fields_ignored: appending an unrecognized
top-level field to the example payload leaves the decoded snapshot
unchanged. -/
theorem c8_unknown_fields_ignored_witness :
    RawPrinter.fromJson
        (.obj (examplePayloadFields ++ [(("firmware"), .str ("5.1.2"))])) =
      some examplePrinter := by
  have h := (c8_unknown_fields_ignored examplePayloadFields
      [(("firmware"), .str ("5.1.2"))]).2.2.2.2.2.2.2.2.2
  rw [h (by decide)]
  rfl

/-- Witness for c7_get_printer_info_always_fetches: on the fresh-cached
client, get_printer_info leaves the state unchanged, and a successful
refresh replaces both cache fields. -/
theorem c7_get_printer_info_always_fetches_witness :
    (pCachedIdle.get_printer_info (.ok goodBody)).2 = pCachedIdle ∧
    ∃ rp, (pCachedIdle.refresh (.ok goodBody) 42).2 =
      { pCachedIdle with printer := some rp, last_refresh := some 42 } := by
  have h := c7_get_printer_info_always_fetches pCachedIdle (.ok goodBody) 42
  exact ⟨h.1, h.2.2.2.2 () rfl⟩
